import Mathlib

/-!
# MultiOSD telemetry: home-position tracker and climb-rate estimator

A shallow embedding of `src/telemetry/telemetry.cpp`.

Modelling conventions

* `float` / `double` values are rationals (`ℚ`) and the arithmetic operators
  `+ - * /` are exact: rounding, infinities and NaN are not modelled.  Every
  finite float is a rational, so the stored values are faithful; only the
  rounding of intermediate results is idealised.  Division by zero is the
  total division of `ℚ` (result `0`); no theorem below relies on that value.
* Lines 164-166 are modelled a second time with IEEE round-to-nearest-even
  (`flp`, `home.rads`, `home.scale_down`, `home.scale_up`), because the
  position of `rads` relative to `pi / 2` at the poles depends on the
  rounding.  The width of `double` is a parameter there.
* `cos`, `sqrt` and `atan2` come from the C library, not from this repository.
  They are taken as a parameter (`Libm`); what a theorem needs of them is an
  explicit hypothesis of that theorem.
* `fabs` is the absolute value, `round` rounds half away from zero, a
  conversion from floating point to an integer type truncates toward zero.
* `uint8_t`, `uint32_t` are naturals, `int16_t` is an integer; where the C
  arithmetic can leave the range the result is reduced modulo `2^w`.  A
  conversion of an out-of-range floating-point value to an integer type is
  undefined in C; the model reduces the truncated value modulo `2^w` as well.
* The namespaces of global variables become records that are passed in and
  returned.  Only the namespaces read or written by `home::update` and
  `stable::update_alt_climb` are modelled (`gps`, `stable`, `home`).
-/

namespace telemetry

/-! ## Constants of `telemetry.h` -/

/-- Modelled from the spec: `telemetry.h` is not among the sources. The spec
lists the GPS fix-quality enum as NoFix/Fixing/2D/3D, in this order. -/
def GPS_STATE_NO_FIX : Nat := 0

/-- Modelled from the spec: second value of the GPS fix-quality enum. -/
def GPS_STATE_FIXING : Nat := 1

/-- Modelled from the spec: third value of the GPS fix-quality enum. -/
def GPS_STATE_2D : Nat := 2

/-- Modelled from the spec: fourth value of the GPS fix-quality enum. -/
def GPS_STATE_3D : Nat := 3

/-- Modelled from the spec: `telemetry.h` is not among the sources. The spec
orders the home state as NoFix < Fixing < Fixed. -/
def HOME_STATE_NO_FIX : Nat := 0

/-- Modelled from the spec: second value of the home state enum. -/
def HOME_STATE_FIXING : Nat := 1

/-- Modelled from the spec: third, terminal value of the home state enum. -/
def HOME_STATE_FIXED : Nat := 2

/-- Modelled from the spec: the initial bearing sector; the spec names the
pre-fix value of the sector index as zero. -/
def HOME_DIR_00R : Nat := 0

/-! ## C library and machine arithmetic -/

/-- The functions of `<math.h>` that `home::update` calls and that are not
rational functions. `atan2` returns radians. -/
structure Libm where
  cos : ℚ → ℚ
  sqrt : ℚ → ℚ
  atan2 : ℚ → ℚ → ℚ

/-- C `fabs`. -/
def fabs (x : ℚ) : ℚ := |x|

/-- Conversion of a floating-point value to an integer: truncation toward
zero. -/
def ftrunc (x : ℚ) : Int := Int.tdiv x.num (x.den : Int)

/-- C `round`: to the nearest integer, halfway cases away from zero. -/
def cround (x : ℚ) : Int :=
  if 0 ≤ x then Rat.floor (x + 1 / 2) else -Rat.floor (-x + 1 / 2)

/-- Reduction of an integer to the range of `int16_t`. -/
def wrap16 (z : Int) : Int := (z + 32768) % 65536 - 32768

/-- Reduction of an integer to the range of `uint8_t`. -/
def wrap8 (z : Int) : Nat := (z % 256).toNat

/-- Assignment of a floating-point value to an `int16_t` variable. -/
def toInt16 (x : ℚ) : Int := wrap16 (ftrunc x)

/-- Subtraction of two `uint32_t` values. -/
def sub32 (a b : Nat) : Nat := (a % 2 ^ 32 + 2 ^ 32 - b % 2 ^ 32) % 2 ^ 32

/-! ## The registry -/

/-- Variables of `namespace gps`. -/
structure Gps where
  latitude : ℚ := 0
  longitude : ℚ := 0
  altitude : ℚ := 0
  speed : ℚ := 0
  heading : ℚ := 0
  sattelites : Int := 0
  state : Nat := GPS_STATE_NO_FIX
  climb : ℚ := 0

/-- Variables of `namespace stable`, with the file-static `_alt_update_time`. -/
structure Stable where
  climb : ℚ := 0
  altitude : ℚ := 0
  ground_speed : ℚ := 0
  air_speed : ℚ := 0
  _alt_update_time : Nat := 0

/-- Variables of `namespace home`. `longitude` and `latitude` have no
initialiser in the source; as globals they start at zero. -/
structure Home where
  state : Nat := HOME_STATE_NO_FIX
  distance : ℚ := 0
  direction : Nat := HOME_DIR_00R
  longitude : ℚ := 0
  latitude : ℚ := 0
  altitude : ℚ := 0

/-- The part of the process-wide telemetry state used here. -/
structure Registry where
  gps : Gps := {}
  stable : Stable := {}
  home : Home := {}

/-- The registry at process start. -/
def Registry.initial : Registry := {}

/-! ## `stable::update_alt_climb` -/

/-- `stable::update_alt_climb (_alt)`; `ticks` is the value returned by
`timer::ticks ()`. -/
def stable.update_alt_climb (ticks : Nat) (_alt : ℚ) (r : Registry) : Registry :=
  let climb := (_alt - r.stable.altitude) / (sub32 ticks r.stable._alt_update_time : ℚ) * 1000
  { r with stable :=
      { r.stable with climb := climb, altitude := _alt, _alt_update_time := ticks % 2 ^ 32 } }

/-! ## `home::update` -/

/-- Lines 145-161 of `home::update`: the fix state machine with the latch. -/
def home.transition (r : Registry) : Home :=
  if r.home.state ≠ HOME_STATE_FIXED then
    if r.gps.state = GPS_STATE_NO_FIX then
      { r.home with state := HOME_STATE_NO_FIX }
    else if r.gps.state = GPS_STATE_FIXING ∨ r.gps.state = GPS_STATE_2D then
      if r.home.state = HOME_STATE_NO_FIX then { r.home with state := HOME_STATE_FIXING }
      else r.home
    else if r.gps.state = GPS_STATE_3D then
      { r.home with
          state := HOME_STATE_FIXED
          longitude := r.gps.longitude
          latitude := r.gps.latitude
          altitude := r.gps.altitude }
    else r.home
  else r.home

/-- Lines 164-171 of `home::update`: the distance to the latched home. -/
def home.compute_distance (lm : Libm) (h : Home) (g : Gps) : ℚ :=
  let rads := fabs h.latitude * 0.0174532925
  let scale_down := lm.cos rads
  let dstlat := fabs (h.latitude - g.latitude) * 111319.5
  let dstlon := fabs (h.longitude - g.longitude) * 111319.5 * scale_down
  lm.sqrt (dstlat * dstlat + dstlon * dstlon)

/-- Lines 174-181 of `home::update`: the `int16_t bearing` that reaches the
sector quantization. -/
def home.compute_bearing (lm : Libm) (h : Home) (g : Gps) : Int :=
  let rads := fabs h.latitude * 0.0174532925
  let scale_up := 1 / lm.cos rads
  let dstlon := h.longitude - g.longitude
  let dstlat := (h.latitude - g.latitude) * scale_up
  let bearing := toInt16 (90 + lm.atan2 dstlat (-dstlon) * 57.295775)
  let bearing := if bearing < 0 then wrap16 (bearing + 360) else bearing
  let bearing := wrap16 (bearing - 180)
  let bearing := if bearing < 0 then wrap16 (bearing + 360) else bearing
  let bearing := toInt16 ((bearing : ℚ) - g.heading)
  if bearing < 0 then wrap16 (bearing + 360) else bearing

/-- The statement `if (bearing < 0) bearing += 360;` of lines 177, 179 and
181. -/
def home.normalize (bearing : Int) : Int :=
  if bearing < 0 then wrap16 (bearing + 360) else bearing

/-- Line 176 of `home::update`: the floating-point value whose conversion
initialises `bearing`. -/
def home.bearing_float (lm : Libm) (h : Home) (g : Gps) : ℚ :=
  let rads := fabs h.latitude * 0.0174532925
  let scale_up := 1 / lm.cos rads
  let dstlon := h.longitude - g.longitude
  let dstlat := (h.latitude - g.latitude) * scale_up
  90 + lm.atan2 dstlat (-dstlon) * 57.295775

/-- Lines 176-177 of `home::update`: `bearing` after its first normalization
(absolute home direction). -/
def home.bearing_abs (lm : Libm) (h : Home) (g : Gps) : Int :=
  home.normalize (toInt16 (home.bearing_float lm h g))

/-- Lines 178-179 of `home::update`: `bearing` after subtracting 180 and
normalizing (absolute return direction). -/
def home.bearing_return (lm : Libm) (h : Home) (g : Gps) : Int :=
  home.normalize (wrap16 (home.bearing_abs lm h g - 180))

/-- Lines 180-181 of `home::update`: `bearing` after subtracting the heading
and normalizing (relative home direction). `home.compute_bearing_eq` proves
it equal to `home.compute_bearing`. -/
def home.bearing_relative (lm : Libm) (h : Home) (g : Gps) : Int :=
  home.normalize (toInt16 ((home.bearing_return lm h g : ℚ) - g.heading))

/-- Lines 182-183 of `home::update`: the quantization of `bearing` into
`direction`. -/
def home.sector (bearing : Int) : Nat :=
  let direction := wrap8 (cround (((bearing : ℚ) / 360) * 16) + 1)
  if direction > 15 then 0 else direction

/-- `home::update ()`. -/
def home.update (lm : Libm) (r : Registry) : Registry :=
  let h := home.transition r
  if h.state ≠ HOME_STATE_FIXED then { r with home := h }
  else
    { r with home :=
        { h with
            distance := home.compute_distance lm h r.gps
            direction := home.sector (home.compute_bearing lm h r.gps) } }

/-- The GPS producer overwrites the fix, then `home::update` runs; once for
each fix of the list. -/
def home.feed (lm : Libm) : Registry → List Gps → Registry
  | r, [] => r
  | r, g :: gs => home.feed lm (home.update lm { r with gps := g }) gs

/-- A rational stand-in for the C library, used to evaluate the model on
concrete inputs: a Taylor polynomial for `cos`, one Newton step for `sqrt`,
and the quadrant angles for `atan2`. -/
def Libm.sample : Libm where
  cos := fun x => 1 - x * x / 2
  sqrt := fun x => if x ≤ 0 then 0 else (x + 1) / 2
  atan2 := fun y x =>
    if 0 < x then 0 else if 0 < y then 3141592 / 2000000
    else if y < 0 then -3141592 / 2000000 else if x < 0 then 3141592 / 1000000 else 0

/-- A GPS fix of quality 3D at latitude 10, longitude 20, altitude 50. -/
def Gps.sample3D : Gps :=
  { latitude := 10, longitude := 20, altitude := 50, heading := 45, state := GPS_STATE_3D }

/-- A GPS reading without a fix, away from the position of `Gps.sample3D`. -/
def Gps.sampleNoFix : Gps :=
  { latitude := 11, longitude := 21, altitude := 60, heading := 90, state := GPS_STATE_NO_FIX }

/-- A GPS reading of quality 2D. -/
def Gps.sample2D : Gps :=
  { latitude := 9, longitude := 19, altitude := 40, heading := 10, state := GPS_STATE_2D }

/-- A GPS reading in state Fixing. -/
def Gps.sampleFixing : Gps :=
  { latitude := 8, longitude := 18, altitude := 30, heading := 20, state := GPS_STATE_FIXING }

/-- A registry whose home is Fixed at (10, 20, 50) while the GPS has lost its
fix at another position. -/
def Registry.sampleFixed : Registry :=
  { gps := Gps.sampleNoFix
    home :=
      { state := HOME_STATE_FIXED, distance := 7, direction := 3
        longitude := 20, latitude := 10, altitude := 50 } }

/-- A registry whose home state is Fixing while the GPS reports NoFix. -/
def Registry.sampleFixing : Registry :=
  { gps := Gps.sampleNoFix, home := { state := HOME_STATE_FIXING } }

/-- A registry whose climb-rate estimator last saw altitude 100 at tick 5000. -/
def Registry.sampleClimb : Registry :=
  { stable := { climb := 3, altitude := 100, _alt_update_time := 5000 } }

/-- A registry whose climb-rate estimator last saw altitude 100 at tick
`2^32 - 500`, shortly before the tick counter wraps. -/
def Registry.sampleWrap : Registry :=
  { stable := { climb := 3, altitude := 100, _alt_update_time := 4294966796 } }

/-- A registry whose home is Fixed at latitude 0, longitude 0, with the vehicle
one degree of longitude to the east on the equator, flying `heading`. At this
position `cos (0) = 1` and `atan2 (0, 1) = 0`, which `Libm.sample` returns
too, so that line 176 yields bearing 90 and line 179 yields 270. -/
def Registry.sampleEast (heading : ℚ) : Registry :=
  { gps := { latitude := 0, longitude := 1, heading := heading, state := GPS_STATE_3D }
    home := { state := HOME_STATE_FIXED, longitude := 0, latitude := 0 } }

/-- The sector quantization of `home.sector` written in integer arithmetic
(`home.sector_eq` proves the two equal). -/
def home.sector_int (b : Int) : Nat :=
  let direction := wrap8 ((if 0 ≤ b then (4 * b + 45) / 90 else -((-4 * b + 45) / 90)) + 1)
  if direction > 15 then 0 else direction

/-- The number of bearings among 0..359 that `home::update` maps to sector
`s`. -/
def home.sector_count (s : Nat) : Nat :=
  ((List.range 360).filter (fun b => home.sector (b : Int) = s)).length

/-! ## Line 164 with floating-point rounding

Whether `rads` stays below `pi / 2` at the poles is decided by the rounding of
the product, so for lines 164-166 the rounding is modelled as well. -/

/-- Rounding of a rational to the nearest integer, ties to the even one. -/
def rne (x : ℚ) : Int :=
  if x - (Rat.floor x : ℚ) < 1 / 2 then Rat.floor x
  else if 1 / 2 < x - (Rat.floor x : ℚ) then Rat.floor x + 1
  else if Rat.floor x % 2 = 0 then Rat.floor x else Rat.floor x + 1

/-- IEEE round-to-nearest-even of a rational to a binary floating-point format
with a significand of `p` bits (24 for binary32, 53 for binary64). The
exponent is unbounded: overflow and subnormal numbers are not modelled. -/
def flp (p : Nat) (x : ℚ) : ℚ :=
  if x = 0 then 0
  else (rne (x / (2 : ℚ) ^ (Int.log 2 |x| + 1 - (p : Int))) : ℚ)
    * (2 : ℚ) ^ (Int.log 2 |x| + 1 - (p : Int))

/-- Line 164 of `home::update`, `float rads = fabs (latitude) * 0.0174532925`,
with rounding. The literal and the product are of type `double`, whose
significand has `dp` bits (24 where `double` is 32 bits wide, as is the
default of avr-gcc, 53 where it is 64 bits wide); the result is stored in a
`float`. -/
def home.rads (dp : Nat) (latitude : ℚ) : ℚ :=
  flp 24 (flp dp (fabs latitude * flp dp 0.0174532925))

/-- Line 165 of `home::update`: `double scale_down = cos (rads)`. -/
def home.scale_down (lm : Libm) (dp : Nat) (latitude : ℚ) : ℚ :=
  lm.cos (home.rads dp latitude)

/-- Line 166 of `home::update`: `double scale_up = 1.0 / cos (rads)`, the
quotient rounded to `double`. -/
def home.scale_up (lm : Libm) (dp : Nat) (latitude : ℚ) : ℚ :=
  flp dp (1 / lm.cos (home.rads dp latitude))

theorem home.transition_of_fixed (r : Registry) (h : r.home.state = HOME_STATE_FIXED) :
    home.transition r = r.home := by
  simp [home.transition, h]

theorem home.update_state (lm : Libm) (r : Registry) :
    (home.update lm r).home.state = (home.transition r).state := by
  unfold home.update
  by_cases h : (home.transition r).state = HOME_STATE_FIXED <;> simp [h]

theorem home.update_latch (lm : Libm) (r : Registry) :
    (home.update lm r).home.latitude = (home.transition r).latitude ∧
    (home.update lm r).home.longitude = (home.transition r).longitude ∧
    (home.update lm r).home.altitude = (home.transition r).altitude := by
  unfold home.update
  by_cases h : (home.transition r).state = HOME_STATE_FIXED <;> simp [h]

theorem home.update_of_not_fixed (lm : Libm) (r : Registry)
    (h : (home.transition r).state ≠ HOME_STATE_FIXED) :
    home.update lm r = { r with home := home.transition r } := by
  simp [home.update, h]

theorem home.update_of_fixed (lm : Libm) (r : Registry)
    (h : (home.transition r).state = HOME_STATE_FIXED) :
    home.update lm r =
      { r with home :=
          { home.transition r with
              distance := home.compute_distance lm (home.transition r) r.gps
              direction := home.sector (home.compute_bearing lm (home.transition r) r.gps) } } := by
  simp [home.update, h]

theorem home.transition_state_le_two (r : Registry) (h : r.home.state ≤ HOME_STATE_FIXED) :
    (home.transition r).state ≤ HOME_STATE_FIXED := by
  unfold home.transition
  split_ifs <;> simp_all [HOME_STATE_FIXED, HOME_STATE_FIXING, HOME_STATE_NO_FIX]

theorem home.feed_nil (lm : Libm) (r : Registry) : home.feed lm r [] = r := rfl

theorem home.feed_cons (lm : Libm) (r : Registry) (g : Gps) (gs : List Gps) :
    home.feed lm r (g :: gs) = home.feed lm (home.update lm { r with gps := g }) gs := rfl

theorem home.feed_snoc (lm : Libm) (r : Registry) (gs : List Gps) (g : Gps) :
    home.feed lm r (gs ++ [g]) = home.update lm { home.feed lm r gs with gps := g } := by
  induction gs generalizing r with
  | nil => rfl
  | cons g0 gs ih => simp only [List.cons_append, home.feed_cons, ih]

theorem home.transition_state_cases (r : Registry) :
    (r.home.state = HOME_STATE_FIXED → (home.transition r).state = HOME_STATE_FIXED) ∧
    (r.home.state ≠ HOME_STATE_FIXED → r.gps.state = GPS_STATE_NO_FIX →
      (home.transition r).state = HOME_STATE_NO_FIX) ∧
    (r.home.state = HOME_STATE_NO_FIX →
      r.gps.state = GPS_STATE_FIXING ∨ r.gps.state = GPS_STATE_2D →
      (home.transition r).state = HOME_STATE_FIXING) ∧
    (r.home.state ≠ HOME_STATE_NO_FIX →
      r.gps.state = GPS_STATE_FIXING ∨ r.gps.state = GPS_STATE_2D →
      (home.transition r).state = r.home.state) ∧
    (r.home.state ≠ HOME_STATE_FIXED → r.gps.state = GPS_STATE_3D →
      (home.transition r).state = HOME_STATE_FIXED) ∧
    (r.gps.state ≠ GPS_STATE_NO_FIX → r.gps.state ≠ GPS_STATE_FIXING →
      r.gps.state ≠ GPS_STATE_2D → r.gps.state ≠ GPS_STATE_3D →
      (home.transition r).state = r.home.state) := by
  unfold home.transition
  refine ⟨?_, ?_, ?_, ?_, ?_, ?_⟩
  · intro h; simp [h]
  · intro h1 h2; simp [h1, h2]
  · intro h1 h2
    rcases h2 with h2 | h2 <;>
      simp [h1, h2, HOME_STATE_NO_FIX, HOME_STATE_FIXED, GPS_STATE_NO_FIX, GPS_STATE_FIXING,
        GPS_STATE_2D]
  · intro h1 h2
    rcases h2 with h2 | h2 <;>
      simp [h1, h2, GPS_STATE_NO_FIX, GPS_STATE_FIXING, GPS_STATE_2D]
  · intro h1 h2
    simp [h1, h2, GPS_STATE_NO_FIX, GPS_STATE_FIXING, GPS_STATE_2D, GPS_STATE_3D]
  · intro h1 h2 h3 h4
    simp [h1, h2, h3, h4]

theorem home.transition_frame (r : Registry) :
    (home.transition r).distance = r.home.distance ∧
    (home.transition r).direction = r.home.direction := by
  unfold home.transition
  split_ifs <;> exact ⟨rfl, rfl⟩

theorem home.transition_not_fixed_iff (r : Registry) :
    (home.transition r).state ≠ HOME_STATE_FIXED ↔
      (r.home.state ≠ HOME_STATE_FIXED ∧ r.gps.state ≠ GPS_STATE_3D) := by
  have hc := home.transition_state_cases r
  constructor
  · intro h
    refine ⟨fun h1 => h (hc.1 h1), fun h2 => ?_⟩
    by_cases h1 : r.home.state = HOME_STATE_FIXED
    · exact h (hc.1 h1)
    · exact h (hc.2.2.2.2.1 h1 h2)
  · rintro ⟨h1, h2⟩
    by_cases a : r.gps.state = GPS_STATE_NO_FIX
    · rw [hc.2.1 h1 a]; decide
    · by_cases b : r.gps.state = GPS_STATE_FIXING ∨ r.gps.state = GPS_STATE_2D
      · by_cases c : r.home.state = HOME_STATE_NO_FIX
        · rw [hc.2.2.1 c b]; decide
        · rw [hc.2.2.2.1 c b]; exact h1
      · rw [hc.2.2.2.2.2 a (fun h => b (Or.inl h)) (fun h => b (Or.inr h)) h2]
        exact h1

/-! ## Helper lemmas: the sector quantization -/

theorem home.sector_le (b : Int) : home.sector b ≤ 15 := by
  unfold home.sector
  simp only
  split_ifs with h
  · exact Nat.zero_le _
  · exact Nat.le_of_not_lt h

theorem home.cround_bearing (b : Int) :
    cround (((b : ℚ) / 360) * 16) =
      if 0 ≤ b then (4 * b + 45) / 90 else -((-4 * b + 45) / 90) := by
  unfold cround
  have hpos : (0 : ℚ) ≤ (b : ℚ) / 360 * 16 ↔ 0 ≤ b := by
    constructor
    · intro h
      have h2 : (0 : ℚ) ≤ (b : ℚ) := by linarith
      exact_mod_cast h2
    · intro h
      have h2 : (0 : ℚ) ≤ (b : ℚ) := by exact_mod_cast h
      linarith
  have e1 : (b : ℚ) / 360 * 16 + 1 / 2 = ((4 * b + 45 : ℤ) : ℚ) / ((90 : ℕ) : ℚ) := by
    push_cast; ring
  have e2 : -((b : ℚ) / 360 * 16) + 1 / 2 = ((-4 * b + 45 : ℤ) : ℚ) / ((90 : ℕ) : ℚ) := by
    push_cast; ring
  have f1 : Rat.floor ((b : ℚ) / 360 * 16 + 1 / 2) = (4 * b + 45) / 90 := by
    rw [e1]; exact Rat.floor_intCast_div_natCast _ _
  have f2 : Rat.floor (-((b : ℚ) / 360 * 16) + 1 / 2) = (-4 * b + 45) / 90 := by
    rw [e2]; exact Rat.floor_intCast_div_natCast _ _
  by_cases hb : 0 ≤ b
  · rw [if_pos (hpos.mpr hb), if_pos hb, f1]
  · rw [if_neg (fun h => hb (hpos.mp h)), if_neg hb, f2]

theorem home.sector_eq (b : Int) : home.sector b = home.sector_int b := by
  unfold home.sector home.sector_int
  rw [home.cround_bearing]

theorem home.sector_count_eq (s : Nat) :
    home.sector_count s
      = ((List.range 360).filter (fun b => home.sector_int (b : Int) = s)).length := by
  simp only [home.sector_count, home.sector_eq]

theorem home.sector_count_values :
    home.sector_count 0 = 33 ∧ home.sector_count 1 = 12 ∧
    ∀ s : Fin 16, 2 ≤ (s : Nat) →
      home.sector_count s = 22 ∨ home.sector_count s = 23 := by
  simp only [home.sector_count_eq]
  set_option maxRecDepth 100000 in decide

theorem home.sector_one_iff : ∀ b : Fin 360,
    home.sector ((b : Nat) : Int) = 1 ↔ (b : Nat) ≤ 11 := by
  simp only [home.sector_eq]
  set_option maxRecDepth 100000 in decide

theorem home.sector_zero_iff : ∀ b : Fin 360,
    home.sector ((b : Nat) : Int) = 0 ↔ 327 ≤ (b : Nat) := by
  simp only [home.sector_eq]
  set_option maxRecDepth 100000 in decide

theorem home.update_sampleEast (heading : ℚ) :
    (home.update Libm.sample (Registry.sampleEast heading)).home.direction
      = home.sector_int (home.compute_bearing Libm.sample (Registry.sampleEast heading).home
          (Registry.sampleEast heading).gps) := by
  have ht : home.transition (Registry.sampleEast heading) = (Registry.sampleEast heading).home :=
    home.transition_of_fixed _ rfl
  rw [home.update_of_fixed _ _ (by rw [ht]; rfl), ht]
  exact home.sector_eq _

theorem home.compute_bearing_sampleEast :
    home.compute_bearing Libm.sample (Registry.sampleEast 275).home
        (Registry.sampleEast 275).gps = 355 ∧
    home.compute_bearing Libm.sample (Registry.sampleEast 300).home
        (Registry.sampleEast 300).gps = 330 ∧
    home.compute_bearing Libm.sample (Registry.sampleEast 265).home
        (Registry.sampleEast 265).gps = 5 := by
  refine ⟨?_, ?_, ?_⟩ <;>
    norm_num [home.compute_bearing, Registry.sampleEast, Libm.sample, fabs, toInt16, ftrunc,
      wrap16]

/-! ## Helper lemmas: distance and tick arithmetic -/

theorem home.compute_distance_same (lm : Libm) (h : Home) (g : Gps) (hsqrt : lm.sqrt 0 = 0)
    (hlat : h.latitude = g.latitude) (hlon : h.longitude = g.longitude) :
    home.compute_distance lm h g = 0 := by
  simp [home.compute_distance, fabs, hlat, hlon, hsqrt]

theorem home.compute_distance_nonneg (lm : Libm) (h : Home) (g : Gps)
    (hsqrt : ∀ x : ℚ, 0 ≤ x → 0 ≤ lm.sqrt x) : 0 ≤ home.compute_distance lm h g := by
  unfold home.compute_distance
  exact hsqrt _ (add_nonneg (mul_self_nonneg _) (mul_self_nonneg _))

theorem Libm.sample_sqrt_nonneg (x : ℚ) : 0 ≤ Libm.sample.sqrt x := by
  show (0 : ℚ) ≤ if x ≤ 0 then 0 else (x + 1) / 2
  split_ifs
  · exact le_refl _
  · linarith

theorem sub32_of_lt (a b : Nat) (ha : a < 2 ^ 32) (hb : b < 2 ^ 32) :
    sub32 a b = if b ≤ a then a - b else a + 2 ^ 32 - b := by
  unfold sub32
  rw [Nat.mod_eq_of_lt ha, Nat.mod_eq_of_lt hb]
  split_ifs with h
  · have e : a + 2 ^ 32 - b = (a - b) + 2 ^ 32 := by omega
    rw [e, Nat.add_mod_right]
    exact Nat.mod_eq_of_lt (by omega)
  · exact Nat.mod_eq_of_lt (by omega)

/-! ## The home-position latch -/

/-- C1: in a registry whose home state is Fixed, `home::update` keeps the state
Fixed and the latched latitude, longitude and altitude unchanged, whatever
GPS fix the registry holds; and so does every sequence of GPS fixes each
followed by an update. -/
theorem home_fixed_latch_immutable (lm : Libm) (r : Registry)
    (hfix : r.home.state = HOME_STATE_FIXED) :
    ((home.update lm r).home.state = HOME_STATE_FIXED ∧
      (home.update lm r).home.latitude = r.home.latitude ∧
      (home.update lm r).home.longitude = r.home.longitude ∧
      (home.update lm r).home.altitude = r.home.altitude) ∧
    ∀ gs : List Gps,
      (home.feed lm r gs).home.state = HOME_STATE_FIXED ∧
      (home.feed lm r gs).home.latitude = r.home.latitude ∧
      (home.feed lm r gs).home.longitude = r.home.longitude ∧
      (home.feed lm r gs).home.altitude = r.home.altitude := by
  have step : ∀ r : Registry, r.home.state = HOME_STATE_FIXED →
      (home.update lm r).home.state = HOME_STATE_FIXED ∧
      (home.update lm r).home.latitude = r.home.latitude ∧
      (home.update lm r).home.longitude = r.home.longitude ∧
      (home.update lm r).home.altitude = r.home.altitude := by
    intro r h
    have ht := home.transition_of_fixed r h
    have hl := home.update_latch lm r
    rw [home.update_state, ht] at *
    exact ⟨h, hl⟩
  refine ⟨step r hfix, ?_⟩
  intro gs
  induction gs generalizing r with
  | nil => exact ⟨hfix, rfl, rfl, rfl⟩
  | cons g gs ih =>
    rw [home.feed_cons]
    obtain ⟨h1, h2, h3, h4⟩ := step { r with gps := g } hfix
    obtain ⟨k1, k2, k3, k4⟩ := ih (home.update lm { r with gps := g }) h1
    exact ⟨k1, k2.trans h2, k3.trans h3, k4.trans h4⟩

/-- Witness of C1 on a Fixed registry whose GPS has regressed to NoFix. -/
theorem home_fixed_latch_immutable_witness :
    Registry.sampleFixed.home.state = HOME_STATE_FIXED ∧
    Registry.sampleFixed.gps.state = GPS_STATE_NO_FIX ∧
    ((home.update Libm.sample Registry.sampleFixed).home.state = HOME_STATE_FIXED ∧
      (home.update Libm.sample Registry.sampleFixed).home.latitude = 10 ∧
      (home.update Libm.sample Registry.sampleFixed).home.longitude = 20 ∧
      (home.update Libm.sample Registry.sampleFixed).home.altitude = 50) ∧
    ((home.feed Libm.sample Registry.sampleFixed
        [Gps.sample2D, Gps.sampleNoFix, Gps.sampleFixing]).home.state = HOME_STATE_FIXED ∧
      (home.feed Libm.sample Registry.sampleFixed
        [Gps.sample2D, Gps.sampleNoFix, Gps.sampleFixing]).home.latitude = 10 ∧
      (home.feed Libm.sample Registry.sampleFixed
        [Gps.sample2D, Gps.sampleNoFix, Gps.sampleFixing]).home.longitude = 20 ∧
      (home.feed Libm.sample Registry.sampleFixed
        [Gps.sample2D, Gps.sampleNoFix, Gps.sampleFixing]).home.altitude = 50) :=
  ⟨rfl, rfl, (home_fixed_latch_immutable Libm.sample Registry.sampleFixed rfl).1,
    (home_fixed_latch_immutable Libm.sample Registry.sampleFixed rfl).2 _⟩

/-- C2: from a home state that is not Fixed, `home::update` under a 3D GPS fix
sets the home state to Fixed and latches the GPS latitude, longitude and
altitude of that call; and from the initial registry the GPS states NoFix,
Fixing, 2D, 3D, the last at (10, 20, 50), end in Fixed with latch
(10, 20, 50), whatever the other fields of the four fixes. -/
theorem home_latches_on_3D (lm : Libm) :
    (∀ r : Registry, r.home.state ≠ HOME_STATE_FIXED → r.gps.state = GPS_STATE_3D →
      (home.update lm r).home.state = HOME_STATE_FIXED ∧
      (home.update lm r).home.latitude = r.gps.latitude ∧
      (home.update lm r).home.longitude = r.gps.longitude ∧
      (home.update lm r).home.altitude = r.gps.altitude) ∧
    (∀ g1 g2 g3 g4 : Gps,
      g1.state = GPS_STATE_NO_FIX → g2.state = GPS_STATE_FIXING →
      g3.state = GPS_STATE_2D → g4.state = GPS_STATE_3D →
      g4.latitude = 10 → g4.longitude = 20 → g4.altitude = 50 →
      (home.feed lm Registry.initial [g1, g2, g3, g4]).home.state = HOME_STATE_FIXED ∧
      (home.feed lm Registry.initial [g1, g2, g3, g4]).home.latitude = 10 ∧
      (home.feed lm Registry.initial [g1, g2, g3, g4]).home.longitude = 20 ∧
      (home.feed lm Registry.initial [g1, g2, g3, g4]).home.altitude = 50) := by
  have step : ∀ r : Registry, r.home.state ≠ HOME_STATE_FIXED → r.gps.state = GPS_STATE_3D →
      (home.update lm r).home.state = HOME_STATE_FIXED ∧
      (home.update lm r).home.latitude = r.gps.latitude ∧
      (home.update lm r).home.longitude = r.gps.longitude ∧
      (home.update lm r).home.altitude = r.gps.altitude := by
    intro r h1 h2
    have ht : home.transition r =
        { r.home with
            state := HOME_STATE_FIXED
            longitude := r.gps.longitude
            latitude := r.gps.latitude
            altitude := r.gps.altitude } := by
      simp [home.transition, h1, h2, GPS_STATE_3D, GPS_STATE_NO_FIX, GPS_STATE_FIXING,
        GPS_STATE_2D]
    have hl := home.update_latch lm r
    have hs := home.update_state lm r
    rw [ht] at hl hs
    exact ⟨hs, hl⟩
  refine ⟨step, ?_⟩
  intro g1 g2 g3 g4 h1 h2 h3 h4 hlat hlon halt
  have e : [g1, g2, g3, g4] = [g1, g2, g3] ++ [g4] := rfl
  have hne : (home.feed lm Registry.initial [g1, g2, g3]).home.state ≠ HOME_STATE_FIXED := by
    simp only [home.feed_cons, home.feed_nil, home.update_state]
    have a1 : (home.transition { Registry.initial with gps := g1 }).state
        = HOME_STATE_NO_FIX :=
      (home.transition_state_cases _).2.1
        (show Registry.initial.home.state ≠ HOME_STATE_FIXED by decide) h1
    have a2 : (home.transition
        { home.update lm { Registry.initial with gps := g1 } with gps := g2 }).state
        = HOME_STATE_FIXING :=
      (home.transition_state_cases _).2.2.1 (by rw [home.update_state]; exact a1) (Or.inl h2)
    have a3 : (home.transition
        { home.update lm { home.update lm { Registry.initial with gps := g1 } with gps := g2 }
            with gps := g3 }).state = HOME_STATE_FIXING := by
      have := (home.transition_state_cases
        { home.update lm { home.update lm { Registry.initial with gps := g1 } with gps := g2 }
            with gps := g3 }).2.2.2.1
        (by show (home.update lm _).home.state ≠ _; rw [home.update_state, a2]; decide)
        (Or.inr h3)
      rw [this]
      show (home.update lm _).home.state = _
      rw [home.update_state, a2]
    rw [a3]
    decide
  have key := step { home.feed lm Registry.initial [g1, g2, g3] with gps := g4 } hne h4
  rw [e, home.feed_snoc]
  rw [← hlat, ← hlon, ← halt]
  exact key

/-- Witness of C2: the latch step on the initial registry holding a 3D fix,
and the four-fix scenario with concrete fixes. -/
theorem home_latches_on_3D_witness :
    ((home.update Libm.sample { Registry.initial with gps := Gps.sample3D }).home.state
        = HOME_STATE_FIXED ∧
      (home.update Libm.sample { Registry.initial with gps := Gps.sample3D }).home.latitude
        = Gps.sample3D.latitude ∧
      (home.update Libm.sample { Registry.initial with gps := Gps.sample3D }).home.longitude
        = Gps.sample3D.longitude ∧
      (home.update Libm.sample { Registry.initial with gps := Gps.sample3D }).home.altitude
        = Gps.sample3D.altitude) ∧
    ((home.feed Libm.sample Registry.initial
        [Gps.sampleNoFix, Gps.sampleFixing, Gps.sample2D, Gps.sample3D]).home.state
        = HOME_STATE_FIXED ∧
      (home.feed Libm.sample Registry.initial
        [Gps.sampleNoFix, Gps.sampleFixing, Gps.sample2D, Gps.sample3D]).home.latitude = 10 ∧
      (home.feed Libm.sample Registry.initial
        [Gps.sampleNoFix, Gps.sampleFixing, Gps.sample2D, Gps.sample3D]).home.longitude = 20 ∧
      (home.feed Libm.sample Registry.initial
        [Gps.sampleNoFix, Gps.sampleFixing, Gps.sample2D, Gps.sample3D]).home.altitude = 50) :=
  ⟨(home_latches_on_3D Libm.sample).1 { Registry.initial with gps := Gps.sample3D }
      (by decide) rfl,
    (home_latches_on_3D Libm.sample).2 Gps.sampleNoFix Gps.sampleFixing Gps.sample2D
      Gps.sample3D rfl rfl rfl rfl rfl rfl rfl⟩

/-! ## The order of the home states -/

/-- Counterexample to C3 as stated: with the home state Fixing and the GPS
fix-quality NoFix, `home::update` moves the home state back to NoFix. -/
theorem home_state_regresses_on_nofix :
    Registry.sampleFixing.home.state = HOME_STATE_FIXING ∧
    Registry.sampleFixing.gps.state = GPS_STATE_NO_FIX ∧
    (home.update Libm.sample Registry.sampleFixing).home.state = HOME_STATE_NO_FIX ∧
    ¬ Registry.sampleFixing.home.state
        ≤ (home.update Libm.sample Registry.sampleFixing).home.state := by
  decide

/-- C3, amended: for a home state among NoFix, Fixing, Fixed, `home::update`
never leaves Fixed, in one call and over every sequence of GPS fixes; from
Fixing under GPS NoFix it resets the home state to NoFix; in every other
case it does not lower the home state; and over a sequence of GPS fixes none
of which is NoFix the home state never ends below where it started. -/
theorem home_state_monotone_unless_nofix (lm : Libm) (r : Registry)
    (hv : r.home.state ≤ HOME_STATE_FIXED) :
    (r.home.state = HOME_STATE_FIXED → (home.update lm r).home.state = HOME_STATE_FIXED) ∧
    (r.home.state = HOME_STATE_FIXED →
      ∀ gs : List Gps, (home.feed lm r gs).home.state = HOME_STATE_FIXED) ∧
    (r.home.state = HOME_STATE_FIXING → r.gps.state = GPS_STATE_NO_FIX →
      (home.update lm r).home.state = HOME_STATE_NO_FIX) ∧
    (¬ (r.home.state = HOME_STATE_FIXING ∧ r.gps.state = GPS_STATE_NO_FIX) →
      r.home.state ≤ (home.update lm r).home.state) ∧
    (∀ gs : List Gps, (∀ g ∈ gs, g.state ≠ GPS_STATE_NO_FIX) →
      r.home.state ≤ (home.feed lm r gs).home.state) := by
  have step : ∀ r : Registry, r.home.state ≤ HOME_STATE_FIXED →
      ¬ (r.home.state = HOME_STATE_FIXING ∧ r.gps.state = GPS_STATE_NO_FIX) →
      r.home.state ≤ (home.update lm r).home.state := by
    intro r hv hne
    rw [home.update_state]
    unfold home.transition
    simp only [HOME_STATE_FIXED, HOME_STATE_FIXING, HOME_STATE_NO_FIX, GPS_STATE_NO_FIX] at *
    split_ifs <;> first | omega | simp_all
  have stay : ∀ r : Registry, r.home.state = HOME_STATE_FIXED →
      (home.update lm r).home.state = HOME_STATE_FIXED := by
    intro r h
    rw [home.update_state]
    exact (home.transition_state_cases r).1 h
  refine ⟨stay r, ?_, ?_, step r hv, ?_⟩
  · intro h gs
    induction gs generalizing r with
    | nil => exact h
    | cons g gs ih =>
      rw [home.feed_cons]
      have h1 : (home.update lm { r with gps := g }).home.state = HOME_STATE_FIXED :=
        stay { r with gps := g } h
      exact ih (home.update lm { r with gps := g }) (le_of_eq h1) h1
  · intro h1 h2
    rw [home.update_state]
    exact (home.transition_state_cases r).2.1 (by rw [h1]; decide) h2
  · intro gs
    induction gs generalizing r with
    | nil => intro _; exact le_refl _
    | cons g gs ih =>
      intro hall
      rw [home.feed_cons]
      have h1 : r.home.state ≤ (home.update lm { r with gps := g }).home.state :=
        step { r with gps := g } hv
          (fun hc => hall g (List.mem_cons_self g gs) hc.2)
      have hv1 : (home.update lm { r with gps := g }).home.state ≤ HOME_STATE_FIXED := by
        rw [home.update_state]
        exact home.transition_state_le_two { r with gps := g } hv
      exact le_trans h1
        (ih (home.update lm { r with gps := g }) hv1
          (fun g1 hg1 => hall g1 (List.mem_cons_of_mem g hg1)))

/-- Witness of the amended C3, from the states Fixing and Fixed: a Fixed home
stays Fixed under GPS NoFix, in one call and over the fixes NoFix, 2D,
NoFix; a Fixing home is reset to NoFix under GPS NoFix, is not lowered under
GPS 2D, and does not end below Fixing over the fixes 2D, Fixing, 3D. -/
theorem home_state_monotone_unless_nofix_witness :
    (Registry.sampleFixed.gps.state = GPS_STATE_NO_FIX ∧
      (home.update Libm.sample Registry.sampleFixed).home.state = HOME_STATE_FIXED) ∧
    (home.feed Libm.sample Registry.sampleFixed
      [Gps.sampleNoFix, Gps.sample2D, Gps.sampleNoFix]).home.state = HOME_STATE_FIXED ∧
    (Registry.sampleFixing.gps.state = GPS_STATE_NO_FIX ∧
      (home.update Libm.sample Registry.sampleFixing).home.state = HOME_STATE_NO_FIX) ∧
    HOME_STATE_FIXING
      ≤ (home.update Libm.sample
          { Registry.sampleFixing with gps := Gps.sample2D }).home.state ∧
    HOME_STATE_FIXING
      ≤ (home.feed Libm.sample Registry.sampleFixing
          [Gps.sample2D, Gps.sampleFixing, Gps.sample3D]).home.state :=
  ⟨⟨rfl,
      (home_state_monotone_unless_nofix Libm.sample Registry.sampleFixed (by decide)).1 rfl⟩,
    (home_state_monotone_unless_nofix Libm.sample Registry.sampleFixed (by decide)).2.1 rfl
      [Gps.sampleNoFix, Gps.sample2D, Gps.sampleNoFix],
    ⟨rfl,
      (home_state_monotone_unless_nofix Libm.sample Registry.sampleFixing
        (by decide)).2.2.1 rfl rfl⟩,
    (home_state_monotone_unless_nofix Libm.sample
      { Registry.sampleFixing with gps := Gps.sample2D } (by decide)).2.2.2.1 (by decide),
    (home_state_monotone_unless_nofix Libm.sample Registry.sampleFixing
      (by decide)).2.2.2.2 [Gps.sample2D, Gps.sampleFixing, Gps.sample3D] (by decide)⟩

/-! ## The transition table -/

/-- C6: the transitions of `home::update` outside Fixed and 3D. From NoFix, GPS
NoFix gives NoFix and GPS Fixing or 2D gives Fixing; from Fixing, GPS Fixing
or 2D gives Fixing; and a home state Fixing becomes NoFix only under GPS
NoFix. -/
theorem home_transition_table (lm : Libm) (r : Registry) :
    (r.home.state = HOME_STATE_NO_FIX → r.gps.state = GPS_STATE_NO_FIX →
      (home.update lm r).home.state = HOME_STATE_NO_FIX) ∧
    (r.home.state = HOME_STATE_NO_FIX →
      r.gps.state = GPS_STATE_FIXING ∨ r.gps.state = GPS_STATE_2D →
      (home.update lm r).home.state = HOME_STATE_FIXING) ∧
    (r.home.state = HOME_STATE_FIXING →
      r.gps.state = GPS_STATE_FIXING ∨ r.gps.state = GPS_STATE_2D →
      (home.update lm r).home.state = HOME_STATE_FIXING) ∧
    (r.home.state = HOME_STATE_FIXING →
      (home.update lm r).home.state = HOME_STATE_NO_FIX →
      r.gps.state = GPS_STATE_NO_FIX) := by
  rw [home.update_state]
  have hc := home.transition_state_cases r
  refine ⟨?_, ?_, ?_, ?_⟩
  · intro h1 h2
    exact hc.2.1 (by rw [h1]; decide) h2
  · intro h1 h2
    exact hc.2.2.1 h1 h2
  · intro h1 h2
    rw [hc.2.2.2.1 (by rw [h1]; decide) h2, h1]
  · intro h1 h2
    by_contra hn
    by_cases a : r.gps.state = GPS_STATE_FIXING ∨ r.gps.state = GPS_STATE_2D
    · rw [hc.2.2.2.1 (by rw [h1]; decide) a, h1] at h2
      exact absurd h2 (by decide)
    · by_cases b : r.gps.state = GPS_STATE_3D
      · rw [hc.2.2.2.2.1 (by rw [h1]; decide) b] at h2
        exact absurd h2 (by decide)
      · rw [hc.2.2.2.2.2 hn (fun h => a (Or.inl h)) (fun h => a (Or.inr h)) b, h1] at h2
        exact absurd h2 (by decide)

/-- Witness of C6: each row of the table at a concrete registry. -/
theorem home_transition_table_witness :
    (home.update Libm.sample { Registry.initial with gps := Gps.sampleNoFix }).home.state
      = HOME_STATE_NO_FIX ∧
    (home.update Libm.sample { Registry.initial with gps := Gps.sample2D }).home.state
      = HOME_STATE_FIXING ∧
    (home.update Libm.sample { Registry.sampleFixing with gps := Gps.sampleFixing }).home.state
      = HOME_STATE_FIXING ∧
    Registry.sampleFixing.gps.state = GPS_STATE_NO_FIX :=
  ⟨(home_transition_table Libm.sample { Registry.initial with gps := Gps.sampleNoFix }).1
      rfl rfl,
    (home_transition_table Libm.sample { Registry.initial with gps := Gps.sample2D }).2.1
      rfl (Or.inr rfl),
    (home_transition_table Libm.sample
      { Registry.sampleFixing with gps := Gps.sampleFixing }).2.2.1 rfl (Or.inl rfl),
    (home_transition_table Libm.sample Registry.sampleFixing).2.2.2 rfl (by decide)⟩

/-! ## Distance and direction before the fix -/

/-- C7: when the home state is not Fixed after the transition step, which is
the case exactly when it was not Fixed before the call and the GPS
fix-quality is not 3D, `home::update` leaves `distance` and `direction` as
they were; and from the initial registry both stay 0 over every sequence of
GPS fixes none of which is 3D. -/
theorem home_distance_direction_frame (lm : Libm) :
    (∀ r : Registry, (home.transition r).state ≠ HOME_STATE_FIXED ↔
      (r.home.state ≠ HOME_STATE_FIXED ∧ r.gps.state ≠ GPS_STATE_3D)) ∧
    (∀ r : Registry, r.home.state ≠ HOME_STATE_FIXED → r.gps.state ≠ GPS_STATE_3D →
      (home.update lm r).home.distance = r.home.distance ∧
      (home.update lm r).home.direction = r.home.direction) ∧
    (∀ gs : List Gps, (∀ g ∈ gs, g.state ≠ GPS_STATE_3D) →
      (home.feed lm Registry.initial gs).home.distance = 0 ∧
      (home.feed lm Registry.initial gs).home.direction = 0) := by
  have step : ∀ r : Registry, r.home.state ≠ HOME_STATE_FIXED → r.gps.state ≠ GPS_STATE_3D →
      (home.update lm r).home.distance = r.home.distance ∧
      (home.update lm r).home.direction = r.home.direction := by
    intro r h1 h2
    rw [home.update_of_not_fixed lm r ((home.transition_not_fixed_iff r).mpr ⟨h1, h2⟩)]
    exact home.transition_frame r
  refine ⟨home.transition_not_fixed_iff, step, ?_⟩
  have gen : ∀ (gs : List Gps) (r : Registry), r.home.state ≠ HOME_STATE_FIXED →
      (∀ g ∈ gs, g.state ≠ GPS_STATE_3D) →
      (home.feed lm r gs).home.distance = r.home.distance ∧
      (home.feed lm r gs).home.direction = r.home.direction := by
    intro gs
    induction gs with
    | nil => intro r _ _; exact ⟨rfl, rfl⟩
    | cons g gs ih =>
      intro r hr hall
      rw [home.feed_cons]
      have hg : g.state ≠ GPS_STATE_3D := hall g (List.mem_cons_self g gs)
      have hs := step { r with gps := g } hr hg
      have hn : (home.update lm { r with gps := g }).home.state ≠ HOME_STATE_FIXED := by
        rw [home.update_state]
        exact (home.transition_not_fixed_iff { r with gps := g }).mpr ⟨hr, hg⟩
      have hi := ih (home.update lm { r with gps := g }) hn
        (fun g1 hg1 => hall g1 (List.mem_cons_of_mem g hg1))
      exact ⟨hi.1.trans hs.1, hi.2.trans hs.2⟩
  intro gs hall
  exact gen gs Registry.initial (by decide) hall

/-- Witness of C7: a Fixing registry with stale distance and direction under a
2D fix, and the initial registry under fixes NoFix, Fixing, 2D. -/
theorem home_distance_direction_frame_witness :
    ((home.update Libm.sample
        { Registry.sampleFixed with
            gps := Gps.sample2D
            home := { Registry.sampleFixed.home with state := HOME_STATE_FIXING } }).home.distance
        = 7 ∧
      (home.update Libm.sample
        { Registry.sampleFixed with
            gps := Gps.sample2D
            home := { Registry.sampleFixed.home with state := HOME_STATE_FIXING } }).home.direction
        = 3) ∧
    ((home.feed Libm.sample Registry.initial
        [Gps.sampleNoFix, Gps.sampleFixing, Gps.sample2D]).home.distance = 0 ∧
      (home.feed Libm.sample Registry.initial
        [Gps.sampleNoFix, Gps.sampleFixing, Gps.sample2D]).home.direction = 0) :=
  ⟨(home_distance_direction_frame Libm.sample).2.1
      { Registry.sampleFixed with
          gps := Gps.sample2D
          home := { Registry.sampleFixed.home with state := HOME_STATE_FIXING } }
      (by decide) (by decide),
    (home_distance_direction_frame Libm.sample).2.2
      [Gps.sampleNoFix, Gps.sampleFixing, Gps.sample2D] (by decide)⟩

/-! ## Range of the bearing sector -/

/-- C4: `home::direction` is within 0..15 in the initial registry, the sector
quantization returns a value within 0..15 for every `int16_t` bearing, and
`home::update` keeps `direction` within 0..15 for every GPS input, whether or
not that call recomputes it; hence it is within 0..15 after every sequence of
GPS fixes fed to the initial registry. -/
theorem home_direction_in_range (lm : Libm) :
    Registry.initial.home.direction ≤ 15 ∧
    (∀ b : Int, home.sector b ≤ 15) ∧
    (∀ r : Registry, r.home.direction ≤ 15 → (home.update lm r).home.direction ≤ 15) ∧
    (∀ gs : List Gps, (home.feed lm Registry.initial gs).home.direction ≤ 15) := by
  have step : ∀ r : Registry, r.home.direction ≤ 15 →
      (home.update lm r).home.direction ≤ 15 := by
    intro r h
    by_cases hf : (home.transition r).state = HOME_STATE_FIXED
    · rw [home.update_of_fixed lm r hf]
      exact home.sector_le _
    · rw [home.update_of_not_fixed lm r hf]
      show (home.transition r).direction ≤ 15
      rw [(home.transition_frame r).2]
      exact h
  refine ⟨by decide, home.sector_le, step, ?_⟩
  have gen : ∀ (gs : List Gps) (r : Registry), r.home.direction ≤ 15 →
      (home.feed lm r gs).home.direction ≤ 15 := by
    intro gs
    induction gs with
    | nil => intro r h; exact h
    | cons g gs ih =>
      intro r h
      rw [home.feed_cons]
      exact ih _ (step { r with gps := g } h)
  intro gs
  exact gen gs Registry.initial (by decide)

/-- Witness of C4: a Fixed registry, where the call recomputes the sector. -/
theorem home_direction_in_range_witness :
    Registry.sampleFixed.home.direction ≤ 15 ∧
    (home.update Libm.sample Registry.sampleFixed).home.direction ≤ 15 :=
  ⟨by decide, (home_direction_in_range Libm.sample).2.2.1 Registry.sampleFixed (by decide)⟩

/-! ## The distance to home -/

/-- C8: when after the transition step the home state is Fixed and the latched
latitude and longitude equal the GPS latitude and longitude, `home::update`
sets `distance` to 0, for every latitude and heading; in particular the call
that latches (3D seen from a state that is not Fixed) gives distance 0.
The C library enters through `sqrt (0) = 0` only. -/
theorem home_distance_zero_at_home (lm : Libm) (hsqrt : lm.sqrt 0 = 0) :
    (∀ r : Registry, (home.transition r).state = HOME_STATE_FIXED →
      (home.transition r).latitude = r.gps.latitude →
      (home.transition r).longitude = r.gps.longitude →
      (home.update lm r).home.distance = 0) ∧
    (∀ r : Registry, r.home.state ≠ HOME_STATE_FIXED → r.gps.state = GPS_STATE_3D →
      (home.update lm r).home.distance = 0) := by
  have step : ∀ r : Registry, (home.transition r).state = HOME_STATE_FIXED →
      (home.transition r).latitude = r.gps.latitude →
      (home.transition r).longitude = r.gps.longitude →
      (home.update lm r).home.distance = 0 := by
    intro r hf hlat hlon
    rw [home.update_of_fixed lm r hf]
    exact home.compute_distance_same lm _ _ hsqrt hlat hlon
  refine ⟨step, ?_⟩
  intro r h1 h2
  have ht : home.transition r =
      { r.home with
          state := HOME_STATE_FIXED
          longitude := r.gps.longitude
          latitude := r.gps.latitude
          altitude := r.gps.altitude } := by
    simp [home.transition, h1, h2, GPS_STATE_3D, GPS_STATE_NO_FIX, GPS_STATE_FIXING,
      GPS_STATE_2D]
  exact step r (by rw [ht]) (by rw [ht]) (by rw [ht])

/-- Witness of C8: the latching call on the initial registry, and a Fixed
registry whose GPS is back at the home position with another heading. -/
theorem home_distance_zero_at_home_witness :
    Libm.sample.sqrt 0 = 0 ∧
    (home.update Libm.sample
      { Registry.sampleFixed with
          gps := { Gps.sampleNoFix with latitude := 10, longitude := 20 } }).home.distance = 0 ∧
    (home.update Libm.sample { Registry.initial with gps := Gps.sample3D }).home.distance = 0 :=
  ⟨by simp [Libm.sample],
    (home_distance_zero_at_home Libm.sample (by simp [Libm.sample])).1
      { Registry.sampleFixed with
          gps := { Gps.sampleNoFix with latitude := 10, longitude := 20 } }
      (by decide) rfl rfl,
    (home_distance_zero_at_home Libm.sample (by simp [Libm.sample])).2
      { Registry.initial with gps := Gps.sample3D } (by decide) rfl⟩

/-- C9: `home::distance` is 0 in the initial registry, and `home::update` keeps
it non-negative for every GPS input; hence it is non-negative after every
sequence of GPS fixes fed to the initial registry. The C library enters
through `sqrt` being non-negative on non-negative arguments. -/
theorem home_distance_nonneg (lm : Libm) (hsqrt : ∀ x : ℚ, 0 ≤ x → 0 ≤ lm.sqrt x) :
    Registry.initial.home.distance = 0 ∧
    (∀ r : Registry, 0 ≤ r.home.distance → 0 ≤ (home.update lm r).home.distance) ∧
    (∀ gs : List Gps, 0 ≤ (home.feed lm Registry.initial gs).home.distance) := by
  have step : ∀ r : Registry, 0 ≤ r.home.distance →
      0 ≤ (home.update lm r).home.distance := by
    intro r h
    by_cases hf : (home.transition r).state = HOME_STATE_FIXED
    · rw [home.update_of_fixed lm r hf]
      exact home.compute_distance_nonneg lm _ _ hsqrt
    · rw [home.update_of_not_fixed lm r hf]
      show 0 ≤ (home.transition r).distance
      rw [(home.transition_frame r).1]
      exact h
  refine ⟨rfl, step, ?_⟩
  have gen : ∀ (gs : List Gps) (r : Registry), 0 ≤ r.home.distance →
      0 ≤ (home.feed lm r gs).home.distance := by
    intro gs
    induction gs with
    | nil => intro r h; exact h
    | cons g gs ih =>
      intro r h
      rw [home.feed_cons]
      exact ih _ (step { r with gps := g } h)
  intro gs
  exact gen gs Registry.initial (le_refl _)

/-- Witness of C9: a Fixed registry away from home, where the call recomputes
the distance. -/
theorem home_distance_nonneg_witness :
    0 ≤ Registry.sampleFixed.home.distance ∧
    0 ≤ (home.update Libm.sample Registry.sampleFixed).home.distance :=
  ⟨by decide,
    (home_distance_nonneg Libm.sample (fun x _ => Libm.sample_sqrt_nonneg x)).2.1
      Registry.sampleFixed (by decide)⟩

/-! ## The climb-rate estimator -/

/-- C5: with `a0` the previous filtered altitude and `t0` the stored tick of
registry `r`, and a clock reading `t` different from `t0`,
`stable::update_alt_climb (a)` divides by the non-zero `uint32_t` difference
`t - t0`, which is the plain difference when `t0 ≤ t`; it sets
`climb = (a - a0) / (t - t0) * 1000`, the filtered altitude to `a` and the
stored tick to `t`; and `a0 = 100`, `a = 110`, `t = t0 + 1000` give
`climb = 10`. -/
theorem update_alt_climb_formula (r : Registry) (a : ℚ) (t : Nat)
    (ht0 : r.stable._alt_update_time < 2 ^ 32) (ht : t < 2 ^ 32)
    (hne : t ≠ r.stable._alt_update_time) :
    sub32 t r.stable._alt_update_time ≠ 0 ∧
    (r.stable._alt_update_time ≤ t →
      (sub32 t r.stable._alt_update_time : ℚ) = (t : ℚ) - (r.stable._alt_update_time : ℚ)) ∧
    (stable.update_alt_climb t a r).stable.climb
      = (a - r.stable.altitude) / (sub32 t r.stable._alt_update_time : ℚ) * 1000 ∧
    (r.stable._alt_update_time ≤ t →
      (stable.update_alt_climb t a r).stable.climb
        = (a - r.stable.altitude) / ((t : ℚ) - (r.stable._alt_update_time : ℚ)) * 1000) ∧
    (stable.update_alt_climb t a r).stable.altitude = a ∧
    (stable.update_alt_climb t a r).stable._alt_update_time = t ∧
    (r.stable.altitude = 100 → a = 110 → t = r.stable._alt_update_time + 1000 →
      (stable.update_alt_climb t a r).stable.climb = 10) := by
  have hs := sub32_of_lt t r.stable._alt_update_time ht ht0
  have hcast : r.stable._alt_update_time ≤ t →
      (sub32 t r.stable._alt_update_time : ℚ) = (t : ℚ) - (r.stable._alt_update_time : ℚ) := by
    intro hle
    rw [hs, if_pos hle, Nat.cast_sub hle]
  have hclimb : (stable.update_alt_climb t a r).stable.climb
      = (a - r.stable.altitude) / (sub32 t r.stable._alt_update_time : ℚ) * 1000 := rfl
  refine ⟨?_, hcast, hclimb, ?_, rfl, ?_, ?_⟩
  · rw [hs]
    split_ifs <;> omega
  · intro hle
    rw [hclimb, hcast hle]
  · show t % 2 ^ 32 = t
    exact Nat.mod_eq_of_lt ht
  · intro h100 h110 h1000
    rw [hclimb, hcast (by omega), h100, h110, h1000]
    push_cast
    norm_num

/-- Witness of C5: previous altitude 100 at tick 5000, new altitude 110 at tick
6000. -/
theorem update_alt_climb_formula_witness :
    Registry.sampleClimb.stable.altitude = 100 ∧
    Registry.sampleClimb.stable._alt_update_time = 5000 ∧
    (stable.update_alt_climb 6000 110 Registry.sampleClimb).stable.climb = 10 ∧
    (stable.update_alt_climb 6000 110 Registry.sampleClimb).stable.altitude = 110 ∧
    (stable.update_alt_climb 6000 110 Registry.sampleClimb).stable._alt_update_time = 6000 :=
  ⟨rfl, rfl,
    (update_alt_climb_formula Registry.sampleClimb 110 6000 (by decide) (by decide)
      (by decide)).2.2.2.2.2.2 rfl rfl rfl,
    (update_alt_climb_formula Registry.sampleClimb 110 6000 (by decide) (by decide)
      (by decide)).2.2.2.2.1,
    (update_alt_climb_formula Registry.sampleClimb 110 6000 (by decide) (by decide)
      (by decide)).2.2.2.2.2.1⟩

/-! ## The sector quantization -/

/-- C10, the code at the failing inputs: over the bearings 0..359 every sector
0..15 is produced, but not by 22 or 23 bearings each. Sector 1 receives the
12 bearings 0..11 only and sector 0 the 33 bearings 327..359, while sectors
2..15 receive 22 or 23 bearings each. So the bearings 327 and 359 share
sector 0 although 32 degrees apart. In a whole call of `home::update`, with
the home due west of the vehicle, the headings 275 and 300 (bearings 355 and
330) both give direction 0, and the heading 265 (bearing 5) gives
direction 1. -/
theorem home_sector_wedges_unequal :
    (home.sector_count 0 = 33 ∧ home.sector_count 1 = 12 ∧
      ∀ s : Fin 16, 2 ≤ (s : Nat) →
        home.sector_count s = 22 ∨ home.sector_count s = 23) ∧
    (∀ b : Fin 360, home.sector ((b : Nat) : Int) = 1 ↔ (b : Nat) ≤ 11) ∧
    (∀ b : Fin 360, home.sector ((b : Nat) : Int) = 0 ↔ 327 ≤ (b : Nat)) ∧
    (home.sector 327 = 0 ∧ home.sector 359 = 0 ∧ home.sector 0 = 1) ∧
    ((home.update Libm.sample (Registry.sampleEast 275)).home.direction = 0 ∧
      (home.update Libm.sample (Registry.sampleEast 300)).home.direction = 0 ∧
      (home.update Libm.sample (Registry.sampleEast 265)).home.direction = 1) := by
  refine ⟨home.sector_count_values, home.sector_one_iff, home.sector_zero_iff, ?_, ?_⟩
  · simp only [home.sector_eq]
    decide
  · rw [home.update_sampleEast, home.update_sampleEast, home.update_sampleEast,
      home.compute_bearing_sampleEast.1, home.compute_bearing_sampleEast.2.1,
      home.compute_bearing_sampleEast.2.2]
    decide

/-! ## The tick difference across wraparound -/

theorem sub32_wrap (p d : Nat) (hp : p < 2 ^ 32) (hd : d < 2 ^ 32) :
    sub32 ((p + d) % 2 ^ 32) p = d := by
  unfold sub32
  omega

/-- C14: with stored tick `p` below `2^32` and a true elapsed tick count `d`,
`1 ≤ d < 2^32`, the clock reads `(p + d) mod 2^32` and the `uint32_t`
difference `ticks - _alt_update_time` is exactly `d`, hence non-zero, so
that `stable::update_alt_climb` sets `climb = (a - a0) / d * 1000`; this
includes the case where the counter has wrapped, in which the clock reading
is below the stored tick. -/
theorem update_alt_climb_wraparound (r : Registry) (a : ℚ) (d : Nat)
    (hp : r.stable._alt_update_time < 2 ^ 32) (hd1 : 1 ≤ d) (hd2 : d < 2 ^ 32) :
    sub32 ((r.stable._alt_update_time + d) % 2 ^ 32) r.stable._alt_update_time = d ∧
    sub32 ((r.stable._alt_update_time + d) % 2 ^ 32) r.stable._alt_update_time ≠ 0 ∧
    (stable.update_alt_climb ((r.stable._alt_update_time + d) % 2 ^ 32) a r).stable.climb
      = (a - r.stable.altitude) / (d : ℚ) * 1000 ∧
    (2 ^ 32 ≤ r.stable._alt_update_time + d →
      (r.stable._alt_update_time + d) % 2 ^ 32 < r.stable._alt_update_time ∧
      (stable.update_alt_climb ((r.stable._alt_update_time + d) % 2 ^ 32) a r).stable.climb
        = (a - r.stable.altitude) / (d : ℚ) * 1000) := by
  have hs := sub32_wrap r.stable._alt_update_time d hp hd2
  have hclimb :
      (stable.update_alt_climb ((r.stable._alt_update_time + d) % 2 ^ 32) a r).stable.climb
        = (a - r.stable.altitude) / (d : ℚ) * 1000 := by
    show (a - r.stable.altitude)
        / (sub32 ((r.stable._alt_update_time + d) % 2 ^ 32) r.stable._alt_update_time : ℚ) * 1000
      = (a - r.stable.altitude) / (d : ℚ) * 1000
    rw [hs]
  refine ⟨hs, ?_, hclimb, ?_⟩
  · rw [hs]
    omega
  · intro hw
    refine ⟨?_, hclimb⟩
    omega

/-- Witness of C14: stored tick `2^32 - 500`, 1000 ticks elapsed, so the clock
has wrapped and reads 500; altitude 100 to 110 gives climb 10. -/
theorem update_alt_climb_wraparound_witness :
    (Registry.sampleWrap.stable._alt_update_time + 1000) % 2 ^ 32 = 500 ∧
    sub32 500 Registry.sampleWrap.stable._alt_update_time = 1000 ∧
    (stable.update_alt_climb 500 110 Registry.sampleWrap).stable.climb = 10 := by
  have h := update_alt_climb_wraparound Registry.sampleWrap 110 1000 (by decide) (by decide)
    (by decide)
  have e : (Registry.sampleWrap.stable._alt_update_time + 1000) % 2 ^ 32 = 500 := by decide
  rw [e] at h
  refine ⟨e, h.1, ?_⟩
  rw [h.2.2.1]
  norm_num [Registry.sampleWrap]

/-! ## Helper lemmas: the bearing -/

theorem home.compute_bearing_eq (lm : Libm) (h : Home) (g : Gps) :
    home.compute_bearing lm h g = home.bearing_relative lm h g := rfl

theorem wrap16_of_range (z : Int) (h1 : -32768 ≤ z) (h2 : z ≤ 32767) : wrap16 z = z := by
  unfold wrap16
  omega

theorem ftrunc_eq (x : ℚ) : ftrunc x = if 0 ≤ x then ⌊x⌋ else -⌊-x⌋ := by
  unfold ftrunc
  split_ifs with hx
  · rw [Rat.floor_def]
    exact Int.tdiv_eq_ediv (Rat.num_nonneg.mpr hx) (Int.ofNat_nonneg _)
  · have hneg : 0 ≤ -x := by linarith
    rw [Rat.floor_def, Rat.neg_num, Rat.neg_den,
      ← Int.tdiv_eq_ediv (by rw [← Rat.neg_num]; exact Rat.num_nonneg.mpr hneg)
        (Int.ofNat_nonneg _),
      Int.neg_tdiv, neg_neg]

theorem ftrunc_range (x : ℚ) (a b : Int) (ha : a ≤ 0) (hb : 0 ≤ b)
    (h1 : (a : ℚ) - 1 < x) (h2 : x < (b : ℚ) + 1) : a ≤ ftrunc x ∧ ftrunc x ≤ b := by
  rw [ftrunc_eq]
  split_ifs with hx
  · have hf : 0 ≤ ⌊x⌋ := Int.floor_nonneg.mpr hx
    have hlt : ⌊x⌋ < b + 1 := Int.floor_lt.mpr (by push_cast; exact h2)
    omega
  · have hneg : 0 ≤ -x := by linarith
    have hf : 0 ≤ ⌊-x⌋ := Int.floor_nonneg.mpr hneg
    have hlt : ⌊-x⌋ < -a + 1 := Int.floor_lt.mpr (by push_cast; linarith)
    omega

theorem home.normalize_of_range (b : Int) (h1 : -360 ≤ b) (h2 : b ≤ 359) :
    home.normalize b = (if b < 0 then b + 360 else b) ∧
    0 ≤ home.normalize b ∧ home.normalize b ≤ 359 := by
  unfold home.normalize
  split_ifs with hb
  · rw [wrap16_of_range (b + 360) (by omega) (by omega)]
    exact ⟨rfl, by omega, by omega⟩
  · exact ⟨rfl, by omega, h2⟩

theorem home.bearing_float_range (lm : Libm) (h : Home) (g : Gps)
    (hatan : ∀ y x : ℚ, -3.141593 ≤ lm.atan2 y x ∧ lm.atan2 y x ≤ 3.141593) :
    (-91 : ℚ) < home.bearing_float lm h g ∧ home.bearing_float lm h g < 271 := by
  unfold home.bearing_float
  simp only
  obtain ⟨h1, h2⟩ := hatan ((h.latitude - g.latitude) * (1 / lm.cos (fabs h.latitude * 0.0174532925)))
    (-(h.longitude - g.longitude))
  constructor <;> norm_num at h1 h2 ⊢ <;> linarith

theorem home.bearing_abs_range (lm : Libm) (h : Home) (g : Gps)
    (hatan : ∀ y x : ℚ, -3.141593 ≤ lm.atan2 y x ∧ lm.atan2 y x ≤ 3.141593) :
    (-90 ≤ ftrunc (home.bearing_float lm h g) ∧ ftrunc (home.bearing_float lm h g) ≤ 270) ∧
    home.bearing_abs lm h g
      = (if ftrunc (home.bearing_float lm h g) < 0 then ftrunc (home.bearing_float lm h g) + 360
          else ftrunc (home.bearing_float lm h g)) ∧
    0 ≤ home.bearing_abs lm h g ∧ home.bearing_abs lm h g ≤ 359 := by
  obtain ⟨h1, h2⟩ := home.bearing_float_range lm h g hatan
  have ht := ftrunc_range (home.bearing_float lm h g) (-90) 270 (by decide) (by decide)
    (by push_cast; linarith) (by push_cast; linarith)
  refine ⟨ht, ?_⟩
  unfold home.bearing_abs toInt16
  rw [wrap16_of_range _ (by omega) (by omega)]
  exact home.normalize_of_range _ (by omega) (by omega)

theorem home.bearing_return_range (lm : Libm) (h : Home) (g : Gps)
    (hatan : ∀ y x : ℚ, -3.141593 ≤ lm.atan2 y x ∧ lm.atan2 y x ≤ 3.141593) :
    home.bearing_return lm h g
      = (if home.bearing_abs lm h g - 180 < 0 then home.bearing_abs lm h g - 180 + 360
          else home.bearing_abs lm h g - 180) ∧
    0 ≤ home.bearing_return lm h g ∧ home.bearing_return lm h g ≤ 359 := by
  obtain ⟨_, _, h1, h2⟩ := home.bearing_abs_range lm h g hatan
  unfold home.bearing_return
  rw [wrap16_of_range _ (by omega) (by omega)]
  exact home.normalize_of_range _ (by omega) (by omega)

theorem home.bearing_relative_range (lm : Libm) (h : Home) (g : Gps)
    (hatan : ∀ y x : ℚ, -3.141593 ≤ lm.atan2 y x ∧ lm.atan2 y x ≤ 3.141593)
    (hh0 : 0 ≤ g.heading) (hh1 : g.heading ≤ 360) :
    (-360 ≤ ftrunc ((home.bearing_return lm h g : ℚ) - g.heading) ∧
      ftrunc ((home.bearing_return lm h g : ℚ) - g.heading) ≤ 359) ∧
    home.bearing_relative lm h g
      = (if ftrunc ((home.bearing_return lm h g : ℚ) - g.heading) < 0
          then ftrunc ((home.bearing_return lm h g : ℚ) - g.heading) + 360
          else ftrunc ((home.bearing_return lm h g : ℚ) - g.heading)) ∧
    0 ≤ home.bearing_relative lm h g ∧ home.bearing_relative lm h g ≤ 359 := by
  obtain ⟨_, h1, h2⟩ := home.bearing_return_range lm h g hatan
  have c1 : (0 : ℚ) ≤ (home.bearing_return lm h g : ℚ) := by exact_mod_cast h1
  have c2 : (home.bearing_return lm h g : ℚ) ≤ 359 := by exact_mod_cast h2
  have ht := ftrunc_range ((home.bearing_return lm h g : ℚ) - g.heading) (-360) 359
    (by decide) (by decide) (by push_cast; linarith) (by push_cast; linarith)
  refine ⟨ht, ?_⟩
  unfold home.bearing_relative toInt16
  rw [wrap16_of_range _ (by omega) (by omega)]
  exact home.normalize_of_range _ (by omega) (by omega)

theorem Libm.atan2_range_of_abs_le_pi (lm : Libm)
    (h : ∀ y x : ℚ, |((lm.atan2 y x : ℚ) : ℝ)| ≤ Real.pi) (y x : ℚ) :
    -3.141593 ≤ lm.atan2 y x ∧ lm.atan2 y x ≤ 3.141593 := by
  obtain ⟨h1, h2⟩ := abs_le.mp (h y x)
  have hpi := Real.pi_lt_d6
  have a : ((-3.141593 : ℚ) : ℝ) ≤ ((lm.atan2 y x : ℚ) : ℝ) := by
    push_cast
    linarith
  have b : ((lm.atan2 y x : ℚ) : ℝ) ≤ ((3.141593 : ℚ) : ℝ) := by
    push_cast
    linarith
  exact ⟨by exact_mod_cast a, by exact_mod_cast b⟩

theorem Libm.sample_atan2_range (y x : ℚ) :
    -3.141593 ≤ Libm.sample.atan2 y x ∧ Libm.sample.atan2 y x ≤ 3.141593 := by
  show (-3.141593 : ℚ) ≤ (if 0 < x then 0 else if 0 < y then 3141592 / 2000000
      else if y < 0 then -3141592 / 2000000 else if x < 0 then 3141592 / 1000000 else 0) ∧
    (if 0 < x then 0 else if 0 < y then 3141592 / 2000000
      else if y < 0 then -3141592 / 2000000 else if x < 0 then 3141592 / 1000000 else 0)
      ≤ (3.141593 : ℚ)
  split_ifs <;> norm_num

/-! ## The heading-relative bearing -/

/-- Counterexample to C11 as stated: with the home due west of the vehicle
(bearing 270 after line 179) the heading -90 leaves bearing 360, and the
heading 720 leaves bearing -90, at the sector quantization; neither lies in
[0, 360). -/
theorem home_bearing_out_of_range :
    home.compute_bearing Libm.sample (Registry.sampleEast (-90)).home
        (Registry.sampleEast (-90)).gps = 360 ∧
    home.compute_bearing Libm.sample (Registry.sampleEast 720).home
        (Registry.sampleEast 720).gps = -90 ∧
    ¬ (home.compute_bearing Libm.sample (Registry.sampleEast (-90)).home
        (Registry.sampleEast (-90)).gps < 360) ∧
    ¬ (0 ≤ home.compute_bearing Libm.sample (Registry.sampleEast 720).home
        (Registry.sampleEast 720).gps) := by
  have e1 : home.compute_bearing Libm.sample (Registry.sampleEast (-90)).home
      (Registry.sampleEast (-90)).gps = 360 := by
    norm_num [home.compute_bearing, Registry.sampleEast, Libm.sample, fabs, toInt16, ftrunc,
      wrap16]
  have e2 : home.compute_bearing Libm.sample (Registry.sampleEast 720).home
      (Registry.sampleEast 720).gps = -90 := by
    norm_num [home.compute_bearing, Registry.sampleEast, Libm.sample, fabs, toInt16, ftrunc,
      wrap16]
  refine ⟨e1, e2, ?_, ?_⟩
  · rw [e1]; decide
  · rw [e2]; decide

/-- C11, amended: when `atan2` returns an angle of magnitude at most 3.141593
(which covers [-pi, pi]) and the GPS heading lies in [0, 360], the
heading-relative bearing that `home::update` passes to the sector
quantization lies in [0, 360), for every latched home position and every
current GPS position. -/
theorem home_bearing_relative_in_range (lm : Libm)
    (hatan : ∀ y x : ℚ, -3.141593 ≤ lm.atan2 y x ∧ lm.atan2 y x ≤ 3.141593) :
    (∀ (h : Home) (g : Gps), 0 ≤ g.heading → g.heading ≤ 360 →
      0 ≤ home.compute_bearing lm h g ∧ home.compute_bearing lm h g < 360) ∧
    (∀ r : Registry, (home.transition r).state = HOME_STATE_FIXED →
      0 ≤ r.gps.heading → r.gps.heading ≤ 360 →
      (home.update lm r).home.direction
        = home.sector (home.compute_bearing lm (home.transition r) r.gps) ∧
      0 ≤ home.compute_bearing lm (home.transition r) r.gps ∧
      home.compute_bearing lm (home.transition r) r.gps < 360) := by
  have key : ∀ (h : Home) (g : Gps), 0 ≤ g.heading → g.heading ≤ 360 →
      0 ≤ home.compute_bearing lm h g ∧ home.compute_bearing lm h g < 360 := by
    intro h g h0 h1
    rw [home.compute_bearing_eq]
    obtain ⟨_, _, a, b⟩ := home.bearing_relative_range lm h g hatan h0 h1
    exact ⟨a, by omega⟩
  refine ⟨key, ?_⟩
  intro r hf h0 h1
  refine ⟨?_, key _ _ h0 h1⟩
  rw [home.update_of_fixed lm r hf]

/-- Witness of the amended C11: the home due west of the vehicle, heading
275, for which the bearing is 355. -/
theorem home_bearing_relative_in_range_witness :
    0 ≤ home.compute_bearing Libm.sample (Registry.sampleEast 275).home
        (Registry.sampleEast 275).gps ∧
    home.compute_bearing Libm.sample (Registry.sampleEast 275).home
        (Registry.sampleEast 275).gps < 360 :=
  (home_bearing_relative_in_range Libm.sample Libm.sample_atan2_range).1
    (Registry.sampleEast 275).home (Registry.sampleEast 275).gps
    (by norm_num [Registry.sampleEast]) (by norm_num [Registry.sampleEast])

/-- C12: when `atan2` returns an angle of magnitude at most 3.141593 (which
covers [-pi, pi]) and the GPS heading `h` satisfies `0 ≤ h < 360`, the three
intermediate values of the `int16_t bearing` are, after their normalization
step, integers in [0, 359]. The values converted or computed before each
normalization lie in [-90, 270], [-180, 179] and [-360, 359], and each
normalized value equals the one computed in unbounded integers, so no
16-bit overflow occurs; the value quantized into a sector is in [0, 359]. -/
theorem home_bearing_stages_in_range (lm : Libm) (h : Home) (g : Gps)
    (hatan : ∀ y x : ℚ, -3.141593 ≤ lm.atan2 y x ∧ lm.atan2 y x ≤ 3.141593)
    (hh0 : 0 ≤ g.heading) (hh1 : g.heading < 360) :
    ((-90 ≤ ftrunc (home.bearing_float lm h g) ∧ ftrunc (home.bearing_float lm h g) ≤ 270) ∧
      home.bearing_abs lm h g
        = (if ftrunc (home.bearing_float lm h g) < 0
            then ftrunc (home.bearing_float lm h g) + 360
            else ftrunc (home.bearing_float lm h g)) ∧
      0 ≤ home.bearing_abs lm h g ∧ home.bearing_abs lm h g ≤ 359) ∧
    ((-180 ≤ home.bearing_abs lm h g - 180 ∧ home.bearing_abs lm h g - 180 ≤ 179) ∧
      home.bearing_return lm h g
        = (if home.bearing_abs lm h g - 180 < 0 then home.bearing_abs lm h g - 180 + 360
            else home.bearing_abs lm h g - 180) ∧
      0 ≤ home.bearing_return lm h g ∧ home.bearing_return lm h g ≤ 359) ∧
    ((-360 ≤ ftrunc ((home.bearing_return lm h g : ℚ) - g.heading) ∧
        ftrunc ((home.bearing_return lm h g : ℚ) - g.heading) ≤ 359) ∧
      home.bearing_relative lm h g
        = (if ftrunc ((home.bearing_return lm h g : ℚ) - g.heading) < 0
            then ftrunc ((home.bearing_return lm h g : ℚ) - g.heading) + 360
            else ftrunc ((home.bearing_return lm h g : ℚ) - g.heading)) ∧
      0 ≤ home.bearing_relative lm h g ∧ home.bearing_relative lm h g ≤ 359) ∧
    (home.compute_bearing lm h g = home.bearing_relative lm h g ∧
      0 ≤ home.compute_bearing lm h g ∧ home.compute_bearing lm h g ≤ 359) := by
  have s1 := home.bearing_abs_range lm h g hatan
  have s2 := home.bearing_return_range lm h g hatan
  have s3 := home.bearing_relative_range lm h g hatan hh0 (le_of_lt hh1)
  refine ⟨s1, ⟨⟨?_, ?_⟩, s2⟩, s3, rfl, ?_, ?_⟩
  · have := s1.2.2.1
    omega
  · have := s1.2.2.2
    omega
  · rw [home.compute_bearing_eq]
    exact s3.2.2.1
  · rw [home.compute_bearing_eq]
    exact s3.2.2.2

/-- Witness of C12: home Fixed at (10, 20), vehicle at (11, 21), heading 90. -/
theorem home_bearing_stages_in_range_witness :
    (0 ≤ home.bearing_abs Libm.sample Registry.sampleFixed.home Gps.sampleNoFix ∧
      home.bearing_abs Libm.sample Registry.sampleFixed.home Gps.sampleNoFix ≤ 359) ∧
    (0 ≤ home.bearing_return Libm.sample Registry.sampleFixed.home Gps.sampleNoFix ∧
      home.bearing_return Libm.sample Registry.sampleFixed.home Gps.sampleNoFix ≤ 359) ∧
    (0 ≤ home.bearing_relative Libm.sample Registry.sampleFixed.home Gps.sampleNoFix ∧
      home.bearing_relative Libm.sample Registry.sampleFixed.home Gps.sampleNoFix ≤ 359) ∧
    (0 ≤ home.compute_bearing Libm.sample Registry.sampleFixed.home Gps.sampleNoFix ∧
      home.compute_bearing Libm.sample Registry.sampleFixed.home Gps.sampleNoFix ≤ 359) := by
  have w := home_bearing_stages_in_range Libm.sample Registry.sampleFixed.home Gps.sampleNoFix
    Libm.sample_atan2_range (by norm_num [Gps.sampleNoFix]) (by norm_num [Gps.sampleNoFix])
  exact ⟨w.1.2.2, w.2.1.2.2, w.2.2.1.2.2, w.2.2.2.2⟩

/-! ## Helper lemmas: floating-point rounding -/

end telemetry
